import Mathlib

/-!
# Verification of the glTF Model lifecycle manager (src/importing/model.js)

Shallow embedding of `XEO.Model`: a component that owns a `Collection`,
drives an asynchronous glTF load whenever its `src` property is set, and
destroys all loaded components when cleared or destroyed.

The embedding follows the source file `src/importing/model.js`:
* `_init` (lines 129-152): creates the owned collection, initialises
  `_src` to null, validates the `src` config, then assigns `this.src`.
* the `src` setter (lines 169-208): falsy guard, string-type guard,
  `_clear()`, record `_src`, hand the collection and path to the loader,
  register the completion callback (which fires "loaded"
  unconditionally), then fire the "src" event.
* `_clear` (lines 236-248): snapshot the collection by iteration, then
  `while (c.length) c.pop().destroy()` - popping destroys the snapshot
  from the BACK, i.e. in reverse insertion order.
* `_getJSON` (lines 250-254): returns `{ src: this._src }`.
* `_destroy` (lines 256-258): calls `_clear()`.

Collaborators that live elsewhere in the repository (`XEO.Collection`,
`XEO.GLTFLoader`, the `Component` base class utilities) are modelled from
the spec where the embedding needs them; each such definition carries a
doc comment starting with `Modelled from the spec:`.
-/

/-- A JavaScript value as far as the `src` setter can observe it:
strings, and representative non-string values. -/
inductive JSValue where
  | str (s : String)
  | num (n : Int)
  | boolV (b : Bool)
  | nullV
  | undefinedV
  | objV
deriving DecidableEq

/-- JavaScript truthiness, as tested by `if (!value)` / `if (!cfg.src)`:
the empty string, zero, `false`, `null` and `undefined` are falsy. -/
def truthy : JSValue → Bool
  | JSValue.str s => decide (s ≠ "")
  | JSValue.num n => decide (n ≠ 0)
  | JSValue.boolV b => b
  | JSValue.nullV => false
  | JSValue.undefinedV => false
  | JSValue.objV => true

/-- Modelled from the spec: the utility `XEO._isString` (not under `src/`)
tests whether a value is of string type. -/
def XEO_isString : JSValue → Bool
  | JSValue.str _ => true
  | _ => false

/-- A runtime component handle created by a load.  `gen` is the load
generation that created it (the n-th loader invocation), `idx` its
position within that load, so handles from distinct loads are distinct
objects. -/
structure Obj where
  gen : Nat
  idx : Nat
deriving DecidableEq

/-- Observable effects emitted by the manager and its collaborators, in
order of occurrence. -/
inductive Event where
  /-- `this.error(msg)` - an error reported through the host channel. -/
  | error (msg : String)
  /-- `this.log(msg)` - a log entry through the host channel. -/
  | log (msg : String)
  /-- a component's own `destroy()` being invoked. -/
  | destroyObj (o : Obj)
  /-- the loader being handed a path and the current contents of the sink
  collection (`setCollection` / `initWithPath` / `load`). -/
  | loaderInit (path : String) (sink : List Obj)
  /-- the loader inserting a parsed component into the sink. -/
  | addObj (o : Obj)
  /-- `this.fire("src", value)` - the path-changed notification. -/
  | fireSrc (path : String)
  /-- `self.fire("loaded")` - the load-completed notification. -/
  | fireLoaded
deriving DecidableEq

/-- The state of one `XEO.Model` instance. `collection` is the contents,
in insertion order, of the owned `XEO.Collection`; `collectionId` is the
identity of that collection object (assigned once at construction, so a
changed id would mean the collection was replaced); `src` is `_src`
(`none` = JavaScript `null`); `pendingLoads` holds the generation tokens
of loader invocations whose completion callback has not yet run;
`nextGen` numbers the next loader invocation. -/
@[ext]
structure ModelState where
  collection : List Obj
  collectionId : Nat
  src : Option String
  pendingLoads : List Nat
  nextGen : Nat
deriving DecidableEq

/-- Modelled from the spec: destroying a component removes it from every
collection that holds it (an object's destructor, as a side effect in the
wider system, removes itself from containers it belongs to), so here it
removes the handle from the manager's collection. -/
def removeFromCollection (st : ModelState) (o : Obj) : ModelState :=
  { st with collection := st.collection.filter (fun x => x ≠ o) }

/-- Invoke one component's own `destroy()`: the destroy effect is
observed, and the component leaves the collection. -/
def destroyComponent (st : ModelState) (o : Obj) : ModelState × Event :=
  (removeFromCollection st o, Event.destroyObj o)

/-- The `while (c.length) { c.pop().destroy(); }` loop of `_clear`,
presented with the snapshot already reversed: `pop` removes the LAST
element of the snapshot first, so the loop walks the reversed snapshot
front to back, destroying each component in turn. -/
def destroyLoop (st : ModelState) : List Obj → ModelState × List Event
  | [] => (st, [])
  | o :: rest =>
    let d := destroyComponent st o
    let r := destroyLoop d.1 rest
    (r.1, d.2 :: r.2)

/-- `_clear` (model.js 236-248): `var c = []` then
`this._collection.iterate(function (component) { c.push(component); })`
snapshots the live membership in insertion order; then
`while (c.length) { c.pop().destroy(); }` destroys the snapshot back to
front. -/
def _clear (st : ModelState) : ModelState × List Event :=
  let c := st.collection
  destroyLoop st c.reverse

/-- The `src` setter (model.js 169-208). In source order:
`if (!value) return;` -
`if (!XEO._isString(value)) { this.error(...); return; }` -
`this._clear();` - `this._src = value;` -
`glTFLoader.setCollection(this._collection); glTFLoader.initWithPath(this._src);` -
`glTFLoader.load(userInfo, options, function () { self.fire("loaded"); });` -
`this.fire("src", this._src);`.
The loader invocation is recorded as a `loaderInit` event carrying the
path and the sink contents at that instant, and as a fresh pending
generation whose completion callback runs later (`loadComplete`). -/
def setSrc (st : ModelState) (value : JSValue) : ModelState × List Event :=
  if truthy value = false then
    (st, [])
  else if XEO_isString value = false then
    (st, [Event.error "Value for src should be a string"])
  else
    match value with
    | JSValue.str s =>
      let cleared := _clear st
      let st2 := { cleared.1 with src := some s }
      let g := st2.nextGen
      let st3 := { st2 with pendingLoads := st2.pendingLoads ++ [g], nextGen := g + 1 }
      (st3, cleared.2 ++ [Event.loaderInit s st2.collection, Event.fireSrc s])
    | _ => (st, [])

/-- Modelled from the spec: the glTF loader asynchronously parses the
asset for generation `g`, inserts each of its `k` parsed components into
the configured sink collection, and then invokes the registered
completion callback exactly once.  The callback registered by the `src`
setter (model.js 191-200) is `function () { self.fire("loaded"); }`: it
fires "loaded" unconditionally - the source keeps no generation token and
performs no staleness check.  The `pendingLoads` guard only models the
loader contract that each load completes at most once. -/
def loadComplete (st : ModelState) (g : Nat) (k : Nat) : ModelState × List Event :=
  if g ∈ st.pendingLoads then
    let objs := (List.range k).map (fun i => Obj.mk g i)
    ({ st with collection := st.collection ++ objs,
               pendingLoads := st.pendingLoads.erase g },
     objs.map Event.addObj ++ [Event.fireLoaded])
  else
    (st, [])

/-- `_getJSON` (model.js 250-254): the serialised snapshot
`{ src: this._src }`. -/
structure ModelJSON where
  src : Option String
deriving DecidableEq

/-- `_getJSON` returns `{ src: this._src }`. -/
def _getJSON (st : ModelState) : ModelJSON :=
  { src := st.src }

/-- `_destroy` (model.js 256-258): `this._clear();`. -/
def _destroy (st : ModelState) : ModelState × List Event :=
  _clear st

/-- The `collection` getter (model.js 228-233): returns the owned
collection by stable reference, modelled by its identity. -/
def collectionGet (st : ModelState) : Nat :=
  st.collectionId

/-- The state after `this._collection = new XEO.Collection(this.scene);`
and `this._src = null;` at the top of `_init` (model.js 137-139): a
freshly created empty collection (identity 0), null path, no loads. -/
def initialState : ModelState :=
  { collection := [], collectionId := 0, src := none, pendingLoads := [], nextGen := 0 }

/-- `_init` (model.js 129-152): creates the collection and nulls `_src`
first; then `if (!cfg.src) { this.error("Config missing: src"); return; }`;
then `if (!XEO._isString(cfg.src)) { this.error(...); return; }`;
finally `this.src = cfg.src;` runs the full setter.  `cfgSrc = none`
models a config without a `src` key (so `!cfg.src` holds). -/
def _init (cfgSrc : Option JSValue) : ModelState × List Event :=
  let st := initialState
  match cfgSrc with
  | none => (st, [Event.error "Config missing: src"])
  | some v =>
    if truthy v = false then
      (st, [Event.error "Config missing: src"])
    else if XEO_isString v = false then
      (st, [Event.error "Value for config src should be a string"])
    else
      setSrc st v

/-- Whether a construction config aborts `_init` with a reported error:
the `src` entry is absent/falsy or not a string. -/
def cfgAborts : Option JSValue → Bool
  | none => true
  | some v => !truthy v || !XEO_isString v

/-- External stimuli the manager reacts to over its life: `src`
assignments, asynchronous load completions (generation `g` delivering `k`
components), and destruction. -/
inductive MAction where
  | set (v : JSValue)
  | complete (g : Nat) (k : Nat)
  | destroyM
deriving DecidableEq

/-- One stimulus applied to a state. -/
def step (st : ModelState) : MAction → ModelState × List Event
  | MAction.set v => setSrc st v
  | MAction.complete g k => loadComplete st g k
  | MAction.destroyM => _destroy st

/-- Run a sequence of stimuli, accumulating the event trace. -/
def run (st : ModelState) : List MAction → ModelState × List Event
  | [] => (st, [])
  | a :: rest =>
    let r1 := step st a
    let r2 := run r1.1 rest
    (r2.1, r1.2 ++ r2.2)

/-- Does a trace contain a log entry? -/
def hasLog (evs : List Event) : Bool :=
  evs.any (fun e => match e with | Event.log _ => true | _ => false)

/-! ## Helper lemmas about `_clear` and the step relation -/

/-- `Event.destroyObj` is injective: distinct handles give distinct
destroy events. -/
theorem destroyObj_injective : Function.Injective Event.destroyObj := by
  intro a b hab
  injection hab

/-- The destroy loop emits exactly one destroy event per element of the
sequence handed to it, in that order, regardless of the starting state. -/
theorem destroyLoop_events (c : List Obj) (st : ModelState) :
    (destroyLoop st c).2 = c.map Event.destroyObj := by
  induction c generalizing st with
  | nil => rfl
  | cons o rest ih => simp [destroyLoop, destroyComponent, ih]

/-- The destroy loop only touches the collection: the path, the pending
loads, the generation counter and the collection identity survive it. -/
theorem destroyLoop_fields (c : List Obj) (st : ModelState) :
    (destroyLoop st c).1.collectionId = st.collectionId
    ∧ (destroyLoop st c).1.src = st.src
    ∧ (destroyLoop st c).1.pendingLoads = st.pendingLoads
    ∧ (destroyLoop st c).1.nextGen = st.nextGen := by
  induction c generalizing st with
  | nil => exact ⟨rfl, rfl, rfl, rfl⟩
  | cons o rest ih => exact ih (removeFromCollection st o)

/-- If every current member is scheduled for destruction, the loop leaves
the collection empty. -/
theorem destroyLoop_collection_nil (c : List Obj) (st : ModelState)
    (h : ∀ o ∈ st.collection, o ∈ c) :
    (destroyLoop st c).1.collection = [] := by
  induction c generalizing st with
  | nil =>
    have hnil : st.collection = [] :=
      List.eq_nil_iff_forall_not_mem.mpr (fun o ho => by simpa using h o ho)
    simpa [destroyLoop] using hnil
  | cons o rest ih =>
    show (destroyLoop (removeFromCollection st o) rest).1.collection = []
    apply ih
    intro x hx
    simp [removeFromCollection, List.mem_filter] at hx
    rcases hx with ⟨hx1, hx2⟩
    rcases List.mem_cons.mp (h x hx1) with h1 | h1
    · exact absurd h1 hx2
    · exact h1

/-- `_clear` destroys the snapshot back to front: the emitted trace is
one destroy event per member, in reverse insertion order. -/
theorem clear_events (st : ModelState) :
    (_clear st).2 = st.collection.reverse.map Event.destroyObj :=
  destroyLoop_events st.collection.reverse st

/-- `_clear` leaves the state unchanged except that the collection is
empty. -/
theorem clear_state (st : ModelState) :
    (_clear st).1 = { st with collection := [] } := by
  have h1 := destroyLoop_fields st.collection.reverse st
  have h2 := destroyLoop_collection_nil st.collection.reverse st
    (fun o ho => List.mem_reverse.mpr ho)
  ext1
  · exact h2
  · exact h1.1
  · exact h1.2.1
  · exact h1.2.2.1
  · exact h1.2.2.2

/-- A valid (truthy-string) assignment, fully evaluated: the setter
clears (destroy events in reverse insertion order), records the path,
registers a fresh load generation, and emits the loader invocation (with
the now-empty sink) followed by the "src" notification. -/
theorem setSrc_str (st : ModelState) (s : String) (h : s ≠ "") :
    setSrc st (JSValue.str s) =
      ({ collection := [], collectionId := st.collectionId, src := some s,
         pendingLoads := st.pendingLoads ++ [st.nextGen], nextGen := st.nextGen + 1 },
       st.collection.reverse.map Event.destroyObj
         ++ [Event.loaderInit s [], Event.fireSrc s]) := by
  have ht : truthy (JSValue.str s) = true := by simp [truthy, h]
  simp [setSrc, ht, XEO_isString, clear_state, clear_events]

/-- Completing a load whose callback is still pending: the parsed
objects are appended to the collection and "loaded" fires. -/
theorem loadComplete_pending (st : ModelState) (g k : Nat)
    (h : g ∈ st.pendingLoads) :
    loadComplete st g k =
      ({ st with collection := st.collection ++ (List.range k).map (fun i => Obj.mk g i),
                 pendingLoads := st.pendingLoads.erase g },
       ((List.range k).map (fun i => Obj.mk g i)).map Event.addObj
         ++ [Event.fireLoaded]) := by
  simp [loadComplete, h]

/-- The setter never replaces the owned collection object. -/
theorem setSrc_collectionId (st : ModelState) (v : JSValue) :
    (setSrc st v).1.collectionId = st.collectionId := by
  unfold setSrc
  split
  · rfl
  · split
    · rfl
    · split
      · simp [clear_state]
      · rfl

/-- Load completion never replaces the owned collection object. -/
theorem loadComplete_collectionId (st : ModelState) (g k : Nat) :
    (loadComplete st g k).1.collectionId = st.collectionId := by
  unfold loadComplete
  split <;> rfl

/-- No stimulus replaces the owned collection object. -/
theorem step_collectionId (st : ModelState) (a : MAction) :
    (step st a).1.collectionId = st.collectionId := by
  cases a with
  | set v => exact setSrc_collectionId st v
  | complete g k => exact loadComplete_collectionId st g k
  | destroyM => simp [step, _destroy, clear_state]

/-- Across any sequence of stimuli the owned collection object is the
one created at construction. -/
theorem run_collectionId (acts : List MAction) (st : ModelState) :
    (run st acts).1.collectionId = st.collectionId := by
  induction acts generalizing st with
  | nil => rfl
  | cons a rest ih =>
    show (run (step st a).1 rest).1.collectionId = st.collectionId
    rw [ih (step st a).1]
    exact step_collectionId st a

/-! ## Concrete states used by the witnesses and counterexamples -/

/-- A loaded manager holding one component from load generation 0. -/
def stA : ModelState :=
  { collection := [Obj.mk 0 0], collectionId := 0, src := some "a",
    pendingLoads := [], nextGen := 1 }

/-- A loaded manager holding two components, in insertion order. -/
def stB : ModelState :=
  { collection := [Obj.mk 0 0, Obj.mk 0 1], collectionId := 0, src := some "a",
    pendingLoads := [], nextGen := 1 }

/-- A manager whose first load (generation 0) is still outstanding but
was superseded by a second assignment (generation 1). -/
def staleSt : ModelState :=
  { collection := [], collectionId := 0, src := some "b",
    pendingLoads := [0, 1], nextGen := 2 }

/-! ## Claim C1 -/

/-- Claim C1 counterexample: construct with src "a" (load generation 0),
then assign "b" (generation 1).  Generation 0 is now superseded, yet its
completion callback still fires "loaded" and its parsed object still
lands in the collection - the source keeps no generation token and the
registered callback is an unconditional fire("loaded").  This refutes
the claim that a stale callback is ignored. -/
theorem c1_stale_callback_counterexample :
    (setSrc (_init (some (JSValue.str "a"))).1 (JSValue.str "b")).1.pendingLoads = [0, 1]
    ∧ (setSrc (_init (some (JSValue.str "a"))).1 (JSValue.str "b")).1.nextGen = 2
    ∧ Event.fireLoaded
        ∈ (loadComplete (setSrc (_init (some (JSValue.str "a"))).1 (JSValue.str "b")).1 0 1).2
    ∧ (loadComplete (setSrc (_init (some (JSValue.str "a"))).1 (JSValue.str "b")).1 0 1).1.collection
        = [Obj.mk 0 0] := by
  decide

/-- Claim C1 amended: completion callbacks are NOT filtered for
staleness.  Every load whose callback is still pending - whether it is
the current outstanding load or one superseded by later assignments -
fires "loaded" when it completes, and its parsed objects are appended to
the shared collection. -/
theorem c1_amended_every_completion_fires (st : ModelState) (g k : Nat)
    (h : g ∈ st.pendingLoads) :
    Event.fireLoaded ∈ (loadComplete st g k).2
    ∧ (loadComplete st g k).1.collection
        = st.collection ++ (List.range k).map (fun i => Obj.mk g i) := by
  rw [loadComplete_pending st g k h]
  exact ⟨by simp, rfl⟩

/-- Witness for the amended C1 at the concrete superseded state: the
stale generation 0 is pending, fires "loaded" and inserts its object. -/
theorem c1_amended_every_completion_fires_witness :
    (0 ∈ staleSt.pendingLoads)
    ∧ (Event.fireLoaded ∈ (loadComplete staleSt 0 1).2
      ∧ (loadComplete staleSt 0 1).1.collection
          = staleSt.collection ++ (List.range 1).map (fun i => Obj.mk 0 i)) :=
  ⟨by decide, c1_amended_every_completion_fires staleSt 0 1 (by decide)⟩

/-! ## Claim C2 -/

/-- Claim C2 (confirmed): for every valid (non-empty string) assignment
the setter, in this strict order, (1) destroys every object currently in
the collection and empties it, (2) records the new path, (3) invokes the
loader with the new path and the now-empty collection as sink, and
(4) fires the "src" (path-changed) notification - all synchronously,
before the load completes ("loaded" is not in the assignment trace). -/
theorem c2_setter_effect_order (st : ModelState) (s : String) (h : s ≠ "") :
    (setSrc st (JSValue.str s)).2
        = st.collection.reverse.map Event.destroyObj
          ++ [Event.loaderInit s [], Event.fireSrc s]
    ∧ (∀ o ∈ st.collection, Event.destroyObj o ∈ (setSrc st (JSValue.str s)).2)
    ∧ (setSrc st (JSValue.str s)).1.collection = []
    ∧ (setSrc st (JSValue.str s)).1.src = some s
    ∧ Event.fireLoaded ∉ (setSrc st (JSValue.str s)).2 := by
  rw [setSrc_str st s h]
  refine ⟨rfl, ?_, rfl, rfl, ?_⟩
  · intro o ho
    exact List.mem_append_left _
      (List.mem_map_of_mem Event.destroyObj (List.mem_reverse.mpr ho))
  · simp

/-- Witness for C2: assigning "b" to a loaded manager holding one
component destroys it, empties the collection, records "b", hands the
empty sink to the loader, then fires "src". -/
theorem c2_setter_effect_order_witness :
    ("b" ≠ "")
    ∧ ((setSrc stA (JSValue.str "b")).2
          = stA.collection.reverse.map Event.destroyObj
            ++ [Event.loaderInit "b" [], Event.fireSrc "b"]
      ∧ (∀ o ∈ stA.collection, Event.destroyObj o ∈ (setSrc stA (JSValue.str "b")).2)
      ∧ (setSrc stA (JSValue.str "b")).1.collection = []
      ∧ (setSrc stA (JSValue.str "b")).1.src = some "b"
      ∧ Event.fireLoaded ∉ (setSrc stA (JSValue.str "b")).2) :=
  ⟨by decide, c2_setter_effect_order stA "b" (by decide)⟩

/-! ## Claim C3 -/

/-- Claim C3 counterexample: with two components in insertion order
`[o00, o01]`, `_clear` destroys `o01` FIRST - `while (c.length)
c.pop().destroy()` pops from the end of the snapshot - so the destroy
trace is the reverse of the snapshot, not the snapshot (insertion)
order the claim states. -/
theorem c3_insertion_order_counterexample :
    (_clear stB).2 = [Event.destroyObj (Obj.mk 0 1), Event.destroyObj (Obj.mk 0 0)]
    ∧ (_clear stB).2 ≠ stB.collection.map Event.destroyObj := by
  decide

/-- Claim C3 amended: the clear-and-destroy operation first snapshots
the current membership, then invokes each member's own destroy operation
in REVERSE snapshot order (the loop pops from the back of the snapshot),
and the live membership set ends up empty; the snapshot is taken before
any destroy call runs, so the trace is a function of the membership at
entry alone (re-entrant mutation by a destructor cannot change which
destroy calls are made). -/
theorem c3_amended_clear_reverse_order (st : ModelState) :
    (_clear st).2 = st.collection.reverse.map Event.destroyObj
    ∧ (_clear st).1.collection = [] :=
  ⟨clear_events st, by simp [clear_state]⟩

/-! ## Claim C4 -/

/-- Claim C4 (confirmed): for a single assignment, the "src"
(path-changed) notification is in the synchronous assignment trace,
"loaded" is not; "loaded" only appears in the trace of that assignment's
own later completion.  Concatenating the two traces, path-changed fires
strictly before loaded for the same assignment. -/
theorem c4_path_changed_before_loaded (st : ModelState) (s : String) (k : Nat)
    (h : s ≠ "") :
    Event.fireSrc s ∈ (setSrc st (JSValue.str s)).2
    ∧ Event.fireLoaded ∉ (setSrc st (JSValue.str s)).2
    ∧ Event.fireLoaded
        ∈ (loadComplete (setSrc st (JSValue.str s)).1 st.nextGen k).2 := by
  rw [setSrc_str st s h]
  refine ⟨by simp, by simp, ?_⟩
  rw [loadComplete_pending _ _ _ (by simp)]
  simp

/-- Witness for C4 at a concrete loaded manager and a 2-object reload. -/
theorem c4_path_changed_before_loaded_witness :
    ("b" ≠ "")
    ∧ (Event.fireSrc "b" ∈ (setSrc stA (JSValue.str "b")).2
      ∧ Event.fireLoaded ∉ (setSrc stA (JSValue.str "b")).2
      ∧ Event.fireLoaded
          ∈ (loadComplete (setSrc stA (JSValue.str "b")).1 stA.nextGen 2).2) :=
  ⟨by decide, c4_path_changed_before_loaded stA "b" 2 (by decide)⟩

/-! ## Claim C5 -/

/-- Claim C5 counterexample: the number 0 is not a string, yet assigning
it reports NO error - the falsy guard `if (!value) return;` runs before
the type check, so the assignment is silently ignored with an empty
trace.  This refutes the claim that every non-string assignment reports
an error. -/
theorem c5_falsy_nonstring_counterexample :
    XEO_isString (JSValue.num 0) = false
    ∧ setSrc stA (JSValue.num 0) = (stA, []) := by
  decide

/-- Claim C5 amended: for a non-string assignment the state is always
unchanged and no load starts; the InvalidArgument error is reported only
when the value is truthy (e.g. a non-zero number or an object) - a falsy
non-string value (0, null, undefined, false) falls into the silent
falsy guard and nothing at all is reported. -/
theorem c5_amended_nonstring_handling (st : ModelState) (v : JSValue)
    (h : XEO_isString v = false) :
    setSrc st v
      = (st, if truthy v = true
             then [Event.error "Value for src should be a string"]
             else []) := by
  cases htv : truthy v with
  | false => simp [setSrc, htv]
  | true => simp [setSrc, htv, h]

/-- Witness for the amended C5: a truthy non-string (an object) reports
the error and leaves the manager untouched. -/
theorem c5_amended_nonstring_handling_witness :
    XEO_isString JSValue.objV = false
    ∧ setSrc stA JSValue.objV
        = (stA, if truthy JSValue.objV = true
                then [Event.error "Value for src should be a string"]
                else []) :=
  ⟨by decide, c5_amended_nonstring_handling stA JSValue.objV (by decide)⟩

/-! ## Claim C6 -/

/-- Claim C6 counterexample: assigning the empty string is a no-op with
a completely empty trace - in particular nothing is logged, refuting the
claim that the no-op is "logged".  `if (!value) return;` logs nothing. -/
theorem c6_silent_noop_counterexample :
    setSrc stA (JSValue.str "") = (stA, [])
    ∧ hasLog (setSrc stA (JSValue.str "")).2 = false := by
  decide

/-- Claim C6 amended: an empty or absent (falsy) assignment is a SILENT
no-op - no state change, no events of any kind (so neither a log entry
nor an error), and no load invoked. -/
theorem c6_amended_falsy_silent_noop (st : ModelState) (v : JSValue)
    (h : truthy v = false) :
    setSrc st v = (st, []) := by
  simp [setSrc, h]

/-- Witness for the amended C6 at the empty string. -/
theorem c6_amended_falsy_silent_noop_witness :
    truthy (JSValue.str "") = false
    ∧ setSrc stA (JSValue.str "") = (stA, []) :=
  ⟨by decide, c6_amended_falsy_silent_noop stA (JSValue.str "") (by decide)⟩

/-! ## Claim C7 -/

/-- Claim C7 (confirmed): `destroy` (via `_destroy`, which runs
`_clear`) synchronously invokes every collection member's own destroy
operation exactly once and leaves the collection empty; calling it a
second time is a no-op - no events (so no error, no second destroy of
any object) and no state change.  The no-duplicates hypothesis is the
collection contract (an ordered set with no duplicate identity). -/
theorem c7_destroy_idempotent (st : ModelState) (h : st.collection.Nodup) :
    (_destroy st).2 = st.collection.reverse.map Event.destroyObj
    ∧ (∀ o ∈ st.collection, ((_destroy st).2).count (Event.destroyObj o) = 1)
    ∧ (_destroy st).1.collection = []
    ∧ _destroy (_destroy st).1 = ((_destroy st).1, []) := by
  refine ⟨clear_events st, ?_, ?_, ?_⟩
  · intro o ho
    show ((_clear st).2).count (Event.destroyObj o) = 1
    rw [clear_events, List.count_map_of_injective _ _ destroyObj_injective]
    exact List.count_eq_one_of_mem (List.nodup_reverse.mpr h) (List.mem_reverse.mpr ho)
  · simp [_destroy, clear_state]
  · have h2 : (_destroy st).1 = { st with collection := [] } := clear_state st
    rw [h2]
    rfl

/-- Witness for C7 at a manager holding two distinct components. -/
theorem c7_destroy_idempotent_witness :
    stB.collection.Nodup
    ∧ ((_destroy stB).2 = stB.collection.reverse.map Event.destroyObj
      ∧ (∀ o ∈ stB.collection, ((_destroy stB).2).count (Event.destroyObj o) = 1)
      ∧ (_destroy stB).1.collection = []
      ∧ _destroy (_destroy stB).1 = ((_destroy stB).1, [])) :=
  ⟨by decide, c7_destroy_idempotent stB (by decide)⟩

/-! ## Claim C8 -/

/-- Claim C8 (confirmed): assigning a path EQUAL to the current path
(`st.src = some s`) still performs the full clear-and-reload - every
current member is destroyed, the collection is emptied, the loader is
invoked again - and once the new load (generation `st.nextGen`)
completes, the collection holds freshly created objects, none of which
is an object that was present before the assignment.  The generation
bound on the old members says they came from earlier loads. -/
theorem c8_same_path_full_reload (st : ModelState) (s : String) (k : Nat)
    (_h1 : st.src = some s) (h2 : s ≠ "")
    (h3 : ∀ o ∈ st.collection, o.gen < st.nextGen) :
    (∀ o ∈ st.collection, Event.destroyObj o ∈ (setSrc st (JSValue.str s)).2)
    ∧ (setSrc st (JSValue.str s)).1.collection = []
    ∧ Event.loaderInit s [] ∈ (setSrc st (JSValue.str s)).2
    ∧ (loadComplete (setSrc st (JSValue.str s)).1 st.nextGen k).1.collection
        = (List.range k).map (fun i => Obj.mk st.nextGen i)
    ∧ ∀ o ∈ st.collection,
        o ∉ (loadComplete (setSrc st (JSValue.str s)).1 st.nextGen k).1.collection := by
  rw [setSrc_str st s h2]
  refine ⟨?_, rfl, by simp, ?_, ?_⟩
  · intro o ho
    exact List.mem_append_left _
      (List.mem_map_of_mem Event.destroyObj (List.mem_reverse.mpr ho))
  · rw [loadComplete_pending _ _ _ (by simp)]
    simp
  · intro o ho hmem
    rw [loadComplete_pending _ _ _ (by simp)] at hmem
    simp only [List.nil_append, List.mem_map] at hmem
    obtain ⟨i, _, hoi⟩ := hmem
    have hlt := h3 o ho
    rw [← hoi] at hlt
    exact Nat.lt_irrefl _ hlt

/-- Witness for C8: reassigning the already-current path "a" to a loaded
manager destroys the old object and a 2-object reload yields only
generation-1 objects, distinct from the old generation-0 object. -/
theorem c8_same_path_full_reload_witness :
    (stA.src = some "a" ∧ "a" ≠ "" ∧ ∀ o ∈ stA.collection, o.gen < stA.nextGen)
    ∧ ((∀ o ∈ stA.collection, Event.destroyObj o ∈ (setSrc stA (JSValue.str "a")).2)
      ∧ (setSrc stA (JSValue.str "a")).1.collection = []
      ∧ Event.loaderInit "a" [] ∈ (setSrc stA (JSValue.str "a")).2
      ∧ (loadComplete (setSrc stA (JSValue.str "a")).1 stA.nextGen 2).1.collection
          = (List.range 2).map (fun i => Obj.mk stA.nextGen i)
      ∧ ∀ o ∈ stA.collection,
          o ∉ (loadComplete (setSrc stA (JSValue.str "a")).1 stA.nextGen 2).1.collection) :=
  ⟨⟨by decide, by decide, by decide⟩,
   c8_same_path_full_reload stA "a" 2 (by decide) (by decide) (by decide)⟩

/-! ## Claim C9 -/

/-- Claim C9 (confirmed): in every state the serialisable snapshot
(`_getJSON`) is exactly the single-field record holding the current path
(or null); changing the collection contents - or any other field - never
changes the serialised state. -/
theorem c9_serialized_snapshot_single_field (st : ModelState) (c : List Obj)
    (p : List Nat) (n i : Nat) :
    _getJSON st = { src := st.src }
    ∧ _getJSON { st with collection := c, collectionId := i,
                         pendingLoads := p, nextGen := n } = _getJSON st :=
  ⟨rfl, rfl⟩

/-! ## Claim C10 -/

/-- Claim C10 (confirmed): for every construction that aborts with a
reported error (src config absent/falsy or not a string), the state is
exactly the freshly initialised one - the owned collection was already
created (identity 0) before the error check, the path is still null and
no load is pending - the trace is a single reported error, and across
any subsequent sequence of stimuli the collection getter keeps returning
the collection created at construction. -/
theorem c10_collection_created_once_and_stable (cfg : Option JSValue)
    (h : cfgAborts cfg = true) :
    (_init cfg).1 = initialState
    ∧ (∃ m, (_init cfg).2 = [Event.error m])
    ∧ (∀ acts : List MAction,
        collectionGet (run (_init cfg).1 acts).1 = collectionGet initialState) := by
  have key : (_init cfg).1 = initialState ∧ ∃ m, (_init cfg).2 = [Event.error m] := by
    cases cfg with
    | none => exact ⟨rfl, ⟨"Config missing: src", rfl⟩⟩
    | some v =>
      cases htv : truthy v with
      | false => simp [_init, htv]
      | true =>
        have hs : XEO_isString v = false := by
          simpa [cfgAborts, htv] using h
        simp [_init, htv, hs]
  refine ⟨key.1, key.2, ?_⟩
  intro acts
  rw [key.1, collectionGet, run_collectionId]
  rfl

/-- Witness for C10: constructing with the non-string src 5 aborts with
an error; the collection exists, the path is null, no load is pending,
and the getter is stable over a run that assigns, completes and
destroys. -/
theorem c10_collection_created_once_and_stable_witness :
    cfgAborts (some (JSValue.num 5)) = true
    ∧ ((_init (some (JSValue.num 5))).1 = initialState
      ∧ (∃ m, (_init (some (JSValue.num 5))).2 = [Event.error m])
      ∧ (∀ acts : List MAction,
          collectionGet (run (_init (some (JSValue.num 5))).1 acts).1
            = collectionGet initialState)) :=
  ⟨by decide, c10_collection_created_once_and_stable (some (JSValue.num 5)) (by decide)⟩
